import Mathlib

set_option autoImplicit false

namespace Blutgang

/-!
Shallow embedding of `src/websocket/client.rs` — the multiplexing WebSocket
RPC client core (connection manager, per-connection worker, call executor,
response correlation).

JSON values (`serde_json::Value`) are modelled by the inductive `Json` below;
`Value` indexing, assignment and `take` are modelled by `Json.get`, `Json.set`
and the get/set pair.  Serialisation (`Value::to_string`) composed with the
cache hash (`blake3::hash` / `xxh3_64`, both external crates) is modelled as an
injective function, so a cache key / subscription fingerprint is represented by
the normalised `Json` value itself.

Collaborators that live outside `src/` (`balancer::processing::cache_querry`,
`balancer::format::replace_block_tags`, `balancer::selection::select::pick`,
`websocket::types::SubscriptionData`) are either taken as parameters or
modelled from the spec; each such definition says so in its doc comment.
-/

/-- JSON values, mirroring `serde_json::Value`.  Objects are the ordered list
of map entries (serde's map is ordered and has no duplicate keys; theorems
that need it assume key lists are duplicate-free). -/
inductive Json where
  | null
  | bool (b : Bool)
  | num (n : Int)
  | str (s : String)
  | arr (elems : List Json)
  | obj (fields : List (String × Json))
deriving Repr

mutual
/-- Decidable equality on `Json`, by structural recursion so that it reduces
on concrete values. -/
def Json.decEq : (a b : Json) → Decidable (a = b)
  | .null, .null => isTrue rfl
  | .bool x, .bool y =>
    match Bool.decEq x y with
    | isTrue h => isTrue (by rw [h])
    | isFalse h => isFalse (by intro hh; cases hh; exact h rfl)
  | .num x, .num y =>
    match Int.decEq x y with
    | isTrue h => isTrue (by rw [h])
    | isFalse h => isFalse (by intro hh; cases hh; exact h rfl)
  | .str x, .str y =>
    match String.decEq x y with
    | isTrue h => isTrue (by rw [h])
    | isFalse h => isFalse (by intro hh; cases hh; exact h rfl)
  | .arr xs, .arr ys =>
    match Json.decEqArr xs ys with
    | isTrue h => isTrue (by rw [h])
    | isFalse h => isFalse (by intro hh; cases hh; exact h rfl)
  | .obj xs, .obj ys =>
    match Json.decEqObj xs ys with
    | isTrue h => isTrue (by rw [h])
    | isFalse h => isFalse (by intro hh; cases hh; exact h rfl)
  | .null, .bool _ => isFalse (by intro h; cases h)
  | .null, .num _ => isFalse (by intro h; cases h)
  | .null, .str _ => isFalse (by intro h; cases h)
  | .null, .arr _ => isFalse (by intro h; cases h)
  | .null, .obj _ => isFalse (by intro h; cases h)
  | .bool _, .null => isFalse (by intro h; cases h)
  | .bool _, .num _ => isFalse (by intro h; cases h)
  | .bool _, .str _ => isFalse (by intro h; cases h)
  | .bool _, .arr _ => isFalse (by intro h; cases h)
  | .bool _, .obj _ => isFalse (by intro h; cases h)
  | .num _, .null => isFalse (by intro h; cases h)
  | .num _, .bool _ => isFalse (by intro h; cases h)
  | .num _, .str _ => isFalse (by intro h; cases h)
  | .num _, .arr _ => isFalse (by intro h; cases h)
  | .num _, .obj _ => isFalse (by intro h; cases h)
  | .str _, .null => isFalse (by intro h; cases h)
  | .str _, .bool _ => isFalse (by intro h; cases h)
  | .str _, .num _ => isFalse (by intro h; cases h)
  | .str _, .arr _ => isFalse (by intro h; cases h)
  | .str _, .obj _ => isFalse (by intro h; cases h)
  | .arr _, .null => isFalse (by intro h; cases h)
  | .arr _, .bool _ => isFalse (by intro h; cases h)
  | .arr _, .num _ => isFalse (by intro h; cases h)
  | .arr _, .str _ => isFalse (by intro h; cases h)
  | .arr _, .obj _ => isFalse (by intro h; cases h)
  | .obj _, .null => isFalse (by intro h; cases h)
  | .obj _, .bool _ => isFalse (by intro h; cases h)
  | .obj _, .num _ => isFalse (by intro h; cases h)
  | .obj _, .str _ => isFalse (by intro h; cases h)
  | .obj _, .arr _ => isFalse (by intro h; cases h)
termination_by structural a => a

/-- Decidable equality on lists of `Json`. -/
def Json.decEqArr : (xs ys : List Json) → Decidable (xs = ys)
  | [], [] => isTrue rfl
  | [], _ :: _ => isFalse (by intro h; cases h)
  | _ :: _, [] => isFalse (by intro h; cases h)
  | x :: xs, y :: ys =>
    match Json.decEq x y, Json.decEqArr xs ys with
    | isTrue h1, isTrue h2 => isTrue (by rw [h1, h2])
    | isFalse h1, _ => isFalse (by intro hh; cases hh; exact h1 rfl)
    | _, isFalse h2 => isFalse (by intro hh; cases hh; exact h2 rfl)
termination_by structural a => a

/-- Decidable equality on object field lists. -/
def Json.decEqObj : (xs ys : List (String × Json)) → Decidable (xs = ys)
  | [], [] => isTrue rfl
  | [], _ :: _ => isFalse (by intro h; cases h)
  | _ :: _, [] => isFalse (by intro h; cases h)
  | (k1, v1) :: xs, (k2, v2) :: ys =>
    match String.decEq k1 k2, Json.decEq v1 v2, Json.decEqObj xs ys with
    | isTrue h0, isTrue h1, isTrue h2 => isTrue (by rw [h0, h1, h2])
    | isFalse h0, _, _ => isFalse (by intro hh; cases hh; exact h0 rfl)
    | _, isFalse h1, _ => isFalse (by intro hh; cases hh; exact h1 rfl)
    | _, _, isFalse h2 => isFalse (by intro hh; cases hh; exact h2 rfl)
termination_by structural a => a
end

instance : DecidableEq Json := Json.decEq

/-- Lookup of a key in an object field list, first occurrence wins
(serde's map has at most one occurrence). -/
def Json.getKey : List (String × Json) → String → Json
  | [], _ => .null
  | (k, v) :: rest, key => if k = key then v else Json.getKey rest key

/-- Read indexing `value[key]`: serde's `Index<&str>` for a shared reference
returns the member for objects and `Value::Null` for everything else
(missing key included). -/
def Json.get : Json → String → Json
  | .obj fields, key => Json.getKey fields key
  | _, _ => .null

/-- Replacement (or append, when the key is absent) of a key in an object
field list, mirroring a map insert. -/
def Json.setKey : List (String × Json) → String → Json → List (String × Json)
  | [], key, v => [(key, v)]
  | (k, w) :: rest, key, v =>
    if k = key then (key, v) :: rest else (k, w) :: Json.setKey rest key v

/-- Write indexing `value[key] = v`: serde's `IndexMut<&str>` inserts into
objects, turns `Null` into a singleton object, and panics on any other
variant.  The panic case is modelled as the identity; every theorem that
relies on the written member assumes the value is an object. -/
def Json.set : Json → String → Json → Json
  | .obj fields, key, v => .obj (Json.setKey fields key v)
  | .null, key, v => .obj [(key, v)]
  | j, _, _ => j

/-- Read indexing `value[i]`: serde returns `Value::Null` unless the value is
an array with `i` in range. -/
def Json.idx : Json → Nat → Json
  | .arr elems, i => (elems.get? i).getD .null
  | _, _ => .null

/-- Value::as_str. -/
def Json.asStr : Json → Option String
  | .str s => some s
  | _ => none

/-- Comparison `value == "lit"` (serde's `PartialEq<&str>`): true exactly when
the value is that string. -/
def Json.eqStr (j : Json) (s : String) : Bool :=
  match j with
  | .str t => t == s
  | _ => false

/-- Comparison `value == n` for an integer id (serde's `PartialEq<u64>`):
true exactly when the value is that number. -/
def Json.eqNum (j : Json) (n : Int) : Bool :=
  match j with
  | .num m => m == n
  | _ => false

/-- Whether a value is a JSON object. -/
def Json.isObj : Json → Bool
  | .obj _ => true
  | _ => false

/-- Incoming response broadcast by a worker: `IncomingResponse { node_id,
content }` from `websocket::types`. -/
structure IncomingResponse where
  node_id : Nat
  content : Json
deriving Repr, DecidableEq

/-- Message accepted by the connection manager's inbound channel
(`WsconnMessage` from `websocket::types`). -/
inductive WsconnMessage where
  | Message (v : Json)
  | Reconnect
deriving Repr, DecidableEq

/-- Node descriptor (`rpc::types::Rpc`, external to `src/`): only the field
read by this file (`ws_url`) is modelled. -/
structure Rpc where
  ws_url : Option String
deriving Repr, DecidableEq

/-- Embedding of `listen_for_response` (client.rs:243-253).  The broadcast
receiver is modelled by the list of responses it will yield before the
channel closes; `recv` returning `Err` (channel closed) is the end of the
list.  The loop keeps the first response whose `content["id"]` equals the
synthetic `user_id` and otherwise falls through to the closed-channel error.
There is no timeout of any kind in the source. -/
def listen_for_response (user_id : Nat) : List IncomingResponse → Except String Json
  | [] => .error "Failed to receive response from WS"
  | response :: rest =>
    if (response.content.get "id").eqNum user_id then .ok response.content
    else listen_for_response user_id rest

/-- Reasons the manager logs before dropping a `Call` message, one per
`println!` in `ws_conn_manager` (client.rs:62-81). -/
inductive ManagerLog where
  | noRpcPosition
  | outOfBounds
  | sendFailed
  | noConnAtIndex
deriving Repr, DecidableEq

/-- What the manager does with one `Call(v)` message. -/
inductive ManagerAction where
  | sent (i : Nat) (v : Json)
  | dropped (log : ManagerLog)
deriving Repr, DecidableEq

/-- Embedding of the `WsconnMessage::Message` arm of `ws_conn_manager`
(client.rs:62-82).  A worker sender (`mpsc::UnboundedSender<Value>`) is
modelled by a `Bool` saying whether `send` succeeds (the receiver is still
alive), so the handle vector is a `List (Option Bool)`.  The selector `pick`
(in `balancer::selection`, external to `src/`) runs under the registry lock;
its result is passed in as `pick_result`. -/
def manager_handle_call (ws_handles : List (Option Bool)) (incoming : Json)
    (pick_result : Option Nat) : ManagerAction :=
  match pick_result with
  | none => .dropped .noRpcPosition
  | some rpc_position =>
    if h : rpc_position < ws_handles.length then
      match ws_handles.get ⟨rpc_position, h⟩ with
      | some send_ok =>
        if send_ok then .sent rpc_position incoming else .dropped .sendFailed
      | none => .dropped .noConnAtIndex
    else .dropped .outOfBounds

/-- One step of the manager's inbound loop, with the data the step reads from
the outside world attached: a `call` carries the selector's answer for it, a
`reconnect` carries the handle vector that `create_ws_vec` rebuilds. -/
inductive ManagerInput where
  | call (v : Json) (pick_result : Option Nat)
  | reconnect (new_handles : List (Option Bool))
deriving Repr, DecidableEq

/-- Embedding of the `while let Some(message) = incoming_rx.recv()` loop of
`ws_conn_manager` (client.rs:60-87): every message is processed in turn, a
`Call` leaves the handle vector unchanged, a `Reconnect` replaces it. -/
def ws_conn_manager_run (ws_handles : List (Option Bool)) :
    List ManagerInput → List ManagerAction
  | [] => []
  | .call v pr :: rest =>
    manager_handle_call ws_handles v pr :: ws_conn_manager_run ws_handles rest
  | .reconnect nh :: rest => ws_conn_manager_run nh rest

/-- Embedding of `create_ws_vec` (client.rs:90-113): for every node of the
registry snapshot, in order, it creates a fresh unbounded channel, spawns
`ws_conn` holding the receiver, and pushes `Some(sender)`.  A just-created
sender's `send` succeeds (its receiver is alive), hence `some true`. -/
def create_ws_vec (rpc_list : List Rpc) : List (Option Bool) :=
  rpc_list.map (fun _ => some true)

/-- What the socket does during one iteration of the `ws_conn` worker loop:
the write fails, or the write succeeds and the following read yields a frame,
an error, or the end of the stream (`next()` returning `None`). -/
inductive SocketEvent where
  | writeErr
  | readOk (frame : Json)
  | readErr
  | streamEnd
deriving Repr, DecidableEq

/-- Observable effects of the `ws_conn` worker task (client.rs:126-160). -/
inductive WorkerEffect where
  | wrote (frame : Json)
  | broadcast (r : IncomingResponse)
  | updatedLatency (i : Nat)
  | reportClosed (i : Nat)
  | panicUnwrap
deriving Repr, DecidableEq

/-- Embedding of the spawned loop of `ws_conn` (client.rs:126-160).  Each
element pairs a dequeued inbound message with the socket's behaviour for that
iteration.  The loop writes every inbound message to the socket unless the
write itself fails; a write error or a read error sends `Closed(index)` on
the error channel and breaks; a successful read broadcasts the parsed frame
and updates the node's latency; `ws_stream.next()` returning `None` hits the
`.unwrap()` on line 140 and panics.  There is no handling of a
`method == "close"` sentinel anywhere in the loop. -/
def ws_conn_run (index : Nat) : List (Json × SocketEvent) → List WorkerEffect
  | [] => []
  | (incoming, ev) :: rest =>
    match ev with
    | .writeErr => [.reportClosed index]
    | .streamEnd => [.wrote incoming, .panicUnwrap]
    | .readErr => [.wrote incoming, .reportClosed index]
    | .readOk frame =>
      .wrote incoming :: .broadcast ⟨index, frame⟩ :: .updatedLatency index ::
        ws_conn_run index rest

/-- Subscription record of the Subscription Table (spec section 3).  The
fingerprint is the canonical form of the request; serialisation is modelled
as injective, so it is kept as the `Json` value. -/
structure SubRecord where
  request_fingerprint : Json
  upstream_id : String
  node_id : Nat
  users : List Nat
deriving Repr, DecidableEq

/-- Modelled from the spec: `SubscriptionData::subscribe_user` lives in
`websocket/types.rs`, which is not under `src/`.  Spec 4.D: if a record
exists for the request's fingerprint, add the user to its user set and
return the upstream subscription id without network I/O; otherwise return
the `Err` sentinel telling the executor to subscribe upstream. -/
def subscribe_user : List SubRecord → Nat → Json → Except Unit String × List SubRecord
  | [], _, _ => (.error (), [])
  | r :: rest, user_id, fp =>
    if r.request_fingerprint = fp then
      (.ok r.upstream_id,
        { r with users := if r.users.contains user_id then r.users
                          else user_id :: r.users } :: rest)
    else
      let (res, rest2) := subscribe_user rest user_id fp
      (res, r :: rest2)

/-- Modelled from the spec: `SubscriptionData::unsubscribe_user` lives in
`websocket/types.rs`, which is not under `src/`.  Spec 4.D: remove the user
from the record with this upstream subscription id; a record whose user set
becomes empty is deleted (the upstream `eth_unsubscribe` it enqueues is
outside this embedding). -/
def unsubscribe_user (sub : List SubRecord) (user_id : Nat)
    (subscription_id : String) : List SubRecord :=
  (sub.map (fun r =>
    if r.upstream_id = subscription_id
    then { r with users := r.users.filter (fun u => u != user_id) }
    else r)).filter (fun r => !r.users.isEmpty)

/-- Lookup in the response cache (`cache_args.cache.get(tx_hash.as_bytes())`,
an external KV store): an association list keyed by the modelled hash. -/
def lookupCache : List (Json × Json) → Json → Option Json
  | [], _ => none
  | (k, v) :: rest, key => if k = key then some v else lookupCache rest key

/-- Modelled from the spec: `cache_querry` lives in `balancer/processing.rs`,
which is not under `src/`.  Spec 4.C: `put(key, bytes)` of the response under
the request's hash, except that responses containing an `error` member must
not be cached; the stored payload has its `id` normalised. -/
def cache_querry (response : Json) (tx_hash : Json)
    (cache : List (Json × Json)) : List (Json × Json) :=
  if response.get "error" = Json.null then
    (tx_hash, response.set "id" Json.null) :: cache
  else cache

/-- Value returned by `execute_ws_call` (a `Result<String, Error>`):
`okJson j` stands for `Ok(j.to_string())`, `okRaw s` for `Ok` of a string
literal assembled in the source, `errWs` for the `Err` propagated from
`listen_for_response`, and `panicTodo` for the `todo!()` on the
`eth_subscribe` miss path (client.rs:217). -/
inductive ExecRet where
  | okJson (response : Json)
  | okRaw (s : String)
  | errWs
  | panicTodo
deriving Repr, DecidableEq

/-- Result of one `execute_ws_call` run: the returned value, the messages
pushed onto the manager's inbound queue, the `(tx_hash, response)` arguments
of every `cache_querry` invocation, and the final cache and Subscription
Table states. -/
structure ExecResult where
  ret : ExecRet
  sent : List WsconnMessage
  cacheFills : List (Json × Json)
  finalCache : List (Json × Json)
  finalSub : List SubRecord
deriving Repr, DecidableEq

/-- Embedding of `execute_ws_call` (client.rs:163-241).  `msgs` is the
broadcast receiver's stream (see `listen_for_response`), `replace_block_tags`
(external, `balancer::format`) is a parameter as the spec treats it: a pure
transform over the request.  Control flow, in source order: take the `id`
(leaving `null`), hash the remaining call, return a cache hit with the
original id stamped back; otherwise branch on `eth_unsubscribe` (string
`params[0]` required) and `eth_subscribe` (Subscription Table consulted; the
miss arm is `todo!()`, so the later `register_subscription` block on
lines 231-234 — which names undefined `node_id` and `subscription_id`
variables — is unreachable); any other method is block-tag substituted,
stamped with the synthetic id, pushed to the manager and correlated, and the
response is cached and returned with the original id restored. -/
def execute_ws_call (call0 : Json) (user_id : Nat) (msgs : List IncomingResponse)
    (sub_data : List SubRecord) (cache : List (Json × Json))
    (replace_block_tags : Json → Json) : ExecResult :=
  let id := call0.get "id"
  let call1 := call0.set "id" Json.null
  let tx_hash := call1
  match lookupCache cache tx_hash with
  | some cached =>
    { ret := .okJson (cached.set "id" id), sent := [], cacheFills := [],
      finalCache := cache, finalSub := sub_data }
  | none =>
    if (call1.get "method").eqStr "eth_unsubscribe" then
      match ((call1.get "params").idx 0).asStr with
      | none =>
        { ret := .okRaw "\"jsonrpc\":\"2.0\", \"id\":1, \"error\": \"Bad Subscription ID!\"",
          sent := [], cacheFills := [], finalCache := cache, finalSub := sub_data }
      | some subscription_id =>
        { ret := .okRaw "\x7b\"jsonrpc\":\"2.0\",\"id\":1,\"result\":true\x7d",
          sent := [], cacheFills := [], finalCache := cache,
          finalSub := unsubscribe_user sub_data user_id subscription_id }
    else
      if (call1.get "method").eqStr "eth_subscribe" then
        match subscribe_user sub_data user_id call1 with
        | (.ok upstream, sub2) =>
          { ret := .okRaw ("\x7b\"jsonrpc\":\"2.0\",\"id\":1,\"result\":" ++ upstream ++ "\x7d"),
            sent := [], cacheFills := [], finalCache := cache, finalSub := sub2 }
        | (.error _, sub2) =>
          { ret := .panicTodo, sent := [], cacheFills := [], finalCache := cache,
            finalSub := sub2 }
      else
        let call2 := replace_block_tags call1
        let call3 := call2.set "id" (Json.num user_id)
        match listen_for_response user_id msgs with
        | .error _ =>
          { ret := .errWs, sent := [WsconnMessage.Message call3], cacheFills := [],
            finalCache := cache, finalSub := sub_data }
        | .ok response =>
          { ret := .okJson (response.set "id" id),
            sent := [WsconnMessage.Message call3],
            cacheFills := [(tx_hash, response)],
            finalCache := cache_querry response tx_hash cache,
            finalSub := sub_data }

/-- Pointwise relation between two object field lists: same keys in the same
order, and equal values everywhere except possibly at the key "id". -/
def FieldsEqExceptId : List (String × Json) → List (String × Json) → Prop
  | [], [] => True
  | (k1, v1) :: tl1, (k2, v2) :: tl2 =>
    k1 = k2 ∧ (k1 ≠ "id" → v1 = v2) ∧ FieldsEqExceptId tl1 tl2
  | _, _ => False

/-- Two requests that are semantically identical, differing at most in the
caller's `id` member.  Key lists are duplicate-free, as serde maps are. -/
def EqExceptId (c1 c2 : Json) : Prop :=
  ∃ fs1 fs2, c1 = .obj fs1 ∧ c2 = .obj fs2
    ∧ (fs1.map Prod.fst).Nodup ∧ FieldsEqExceptId fs1 fs2

/-- Concrete request of spec scenario S1: `eth_blockNumber` by caller id 7. -/
def blockNumberCall : Json :=
  .obj [("id", .num 7), ("jsonrpc", .str "2.0"),
        ("method", .str "eth_blockNumber"), ("params", .arr [])]

/-- The same request resubmitted with caller id 8. -/
def blockNumberCall8 : Json :=
  .obj [("id", .num 8), ("jsonrpc", .str "2.0"),
        ("method", .str "eth_blockNumber"), ("params", .arr [])]

/-- Upstream reply carrying the synthetic id 100 (spec scenario S1). -/
def resp100 : Json :=
  .obj [("id", .num 100), ("jsonrpc", .str "2.0"), ("result", .str "0x10")]

/-- Concrete `eth_subscribe` request by caller id 7 (spec scenario S2). -/
def ethSubscribeCall : Json :=
  .obj [("id", .num 7), ("jsonrpc", .str "2.0"),
        ("method", .str "eth_subscribe"), ("params", .arr [.str "newHeads"])]

/-- Its fingerprint: the call after `call["id"].take()`. -/
def ethSubscribeFp : Json := ethSubscribeCall.set "id" Json.null

/-- Concrete `eth_unsubscribe` request with an empty params array
(spec scenario S4). -/
def badUnsubscribeCall : Json :=
  .obj [("id", .num 7), ("jsonrpc", .str "2.0"),
        ("method", .str "eth_unsubscribe"), ("params", .arr [])]

/-- Concrete well-formed `eth_unsubscribe` request by caller id 7
(spec scenario S3). -/
def goodUnsubscribeCall : Json :=
  .obj [("id", .num 7), ("jsonrpc", .str "2.0"),
        ("method", .str "eth_unsubscribe"), ("params", .arr [.str "0xSUB"])]

/-- The worker's inbound close sentinel described by the spec. -/
def closeSentinel : Json := .obj [("method", .str "close")]

theorem Json.getKey_setKey_self (fs : List (String × Json)) (k : String) (v : Json) :
    Json.getKey (Json.setKey fs k v) k = v := by
  induction fs with
  | nil => simp [Json.setKey, Json.getKey]
  | cons p tl ih =>
    obtain ⟨k1, v1⟩ := p
    by_cases h : k1 = k
    · simp [Json.setKey, Json.getKey, h]
    · simp [Json.setKey, Json.getKey, h, ih]

theorem Json.get_set_self (j : Json) (k : String) (v : Json)
    (h : j.isObj = true ∨ j = .null) : (j.set k v).get k = v := by
  rcases h with h | h
  · cases j <;> simp_all [Json.isObj, Json.set, Json.get, Json.getKey_setKey_self]
  · subst h; simp [Json.set, Json.get, Json.getKey]

theorem Json.setKey_setKey (fs : List (String × Json)) (k : String) (a b : Json) :
    Json.setKey (Json.setKey fs k a) k b = Json.setKey fs k b := by
  induction fs with
  | nil => simp [Json.setKey]
  | cons p tl ih =>
    obtain ⟨k1, v1⟩ := p
    by_cases h : k1 = k
    · simp [Json.setKey, h]
    · simp [Json.setKey, h, ih]

theorem Json.set_set (j : Json) (k : String) (a b : Json) :
    (j.set k a).set k b = j.set k b := by
  cases j <;> simp [Json.set, Json.setKey, Json.setKey_setKey]

theorem FieldsEqExceptId.eq_of_no_id (tl1 : List (String × Json)) :
    ∀ tl2, FieldsEqExceptId tl1 tl2 → (∀ p ∈ tl1, p.1 ≠ "id") → tl1 = tl2 := by
  induction tl1 with
  | nil =>
    intro tl2 h _
    cases tl2 with
    | nil => rfl
    | cons q tl => obtain ⟨k2, v2⟩ := q; exact absurd h (by simp [FieldsEqExceptId])
  | cons p tl1 ih =>
    intro tl2 h hno
    obtain ⟨k1, v1⟩ := p
    cases tl2 with
    | nil => exact absurd h (by simp [FieldsEqExceptId])
    | cons q tl2 =>
      obtain ⟨k2, v2⟩ := q
      obtain ⟨hk, hv, htl⟩ := h
      have hk1 := hno (k1, v1) (List.mem_cons_self _ _)
      subst hk
      rw [hv hk1, ih tl2 htl (fun p hp => hno p (List.mem_cons_of_mem _ hp))]

theorem FieldsEqExceptId.setKey_id_eq (fs1 : List (String × Json)) :
    ∀ fs2, FieldsEqExceptId fs1 fs2 → (fs1.map Prod.fst).Nodup →
      Json.setKey fs1 "id" Json.null = Json.setKey fs2 "id" Json.null := by
  induction fs1 with
  | nil =>
    intro fs2 h _
    cases fs2 with
    | nil => rfl
    | cons q tl => obtain ⟨k2, v2⟩ := q; exact absurd h (by simp [FieldsEqExceptId])
  | cons p tl1 ih =>
    intro fs2 h hnd
    obtain ⟨k1, v1⟩ := p
    cases fs2 with
    | nil => exact absurd h (by simp [FieldsEqExceptId])
    | cons q tl2 =>
      obtain ⟨k2, v2⟩ := q
      obtain ⟨hk, hv, htl⟩ := h
      subst hk
      by_cases hid : k1 = "id"
      · subst hid
        have hnotmem : "id" ∉ tl1.map Prod.fst :=
          (List.nodup_cons.mp (by simpa using hnd)).1
        have hno : ∀ p ∈ tl1, p.1 ≠ "id" := by
          intro p hp hpid
          exact hnotmem (hpid ▸ List.mem_map_of_mem Prod.fst hp)
        simp [Json.setKey]
        exact FieldsEqExceptId.eq_of_no_id tl1 tl2 htl hno
      · have hnd2 : (tl1.map Prod.fst).Nodup := (List.nodup_cons.mp (by simpa using hnd)).2
        simp [Json.setKey, hid]
        exact ⟨hv hid, ih tl2 htl hnd2⟩

theorem EqExceptId.normalized_eq {c1 c2 : Json} (h : EqExceptId c1 c2) :
    c1.set "id" Json.null = c2.set "id" Json.null := by
  obtain ⟨fs1, fs2, h1, h2, hnd, hfe⟩ := h
  subst h1; subst h2
  simp only [Json.set]
  rw [FieldsEqExceptId.setKey_id_eq fs1 fs2 hfe hnd]

theorem listen_for_response_first_match (user_id : Nat)
    (pre post : List IncomingResponse) (r : IncomingResponse)
    (hr : (r.content.get "id").eqNum user_id = true)
    (hpre : ∀ x ∈ pre, (x.content.get "id").eqNum user_id = false) :
    listen_for_response user_id (pre ++ r :: post) = .ok r.content := by
  induction pre with
  | nil => simp [listen_for_response, hr]
  | cons x xs ih =>
    have hx := hpre x (List.mem_cons_self _ _)
    simp only [List.cons_append, listen_for_response, hx]
    simp only [Bool.false_eq_true, if_false]
    exact ih (fun y hy => hpre y (List.mem_cons_of_mem _ hy))

/-- Claim C1: for a call that reaches the network path (not a subscription
management method, cache miss), the executor consumes broadcast messages
until the first one whose `content["id"]` equals its synthetic `user_id`,
returns exactly that content, and the payload it hands back carries the
caller's original `id` — the synthetic id does not leak. -/
theorem execute_ws_call_correlates
    (call : Json) (user_id : Nat) (pre post : List IncomingResponse)
    (r : IncomingResponse) (sub_data : List SubRecord)
    (cache : List (Json × Json)) (f : Json → Json)
    (hunsub : ((call.set "id" Json.null).get "method").eqStr "eth_unsubscribe" = false)
    (hsub : ((call.set "id" Json.null).get "method").eqStr "eth_subscribe" = false)
    (hcache : lookupCache cache (call.set "id" Json.null) = none)
    (hr : (r.content.get "id").eqNum user_id = true)
    (hpre : ∀ x ∈ pre, (x.content.get "id").eqNum user_id = false)
    (hobj : r.content.isObj = true) :
    listen_for_response user_id (pre ++ r :: post) = .ok r.content
    ∧ (execute_ws_call call user_id (pre ++ r :: post) sub_data cache f).ret
        = .okJson (r.content.set "id" (call.get "id"))
    ∧ (r.content.set "id" (call.get "id")).get "id" = call.get "id" := by
  have hl := listen_for_response_first_match user_id pre post r hr hpre
  refine ⟨hl, ?_, Json.get_set_self _ _ _ (Or.inl hobj)⟩
  simp only [execute_ws_call, hcache, hunsub, hsub, hl, Bool.false_eq_true, if_false]

/-- Claim C1, witness: the correlation theorem evaluated at spec scenario S1
(caller id 7, synthetic id 100, one matching broadcast message). -/
theorem execute_ws_call_correlates_witness :
    listen_for_response 100 ([] ++ (⟨0, resp100⟩ : IncomingResponse) :: [])
      = .ok resp100
    ∧ (execute_ws_call blockNumberCall 100 ([] ++ (⟨0, resp100⟩ : IncomingResponse) :: [])
          [] [] (fun c => c)).ret
        = .okJson (resp100.set "id" (blockNumberCall.get "id"))
    ∧ (resp100.set "id" (blockNumberCall.get "id")).get "id" = blockNumberCall.get "id" :=
  execute_ws_call_correlates blockNumberCall 100 [] [] ⟨0, resp100⟩ [] [] (fun c => c)
    (by decide) (by decide) rfl (by decide) (by intro x hx; cases hx) (by decide)

/-- Claim C2: the cache key is the call with its `id` member nulled, so two
requests that differ only in the caller id produce equal keys; a second
semantically identical call is answered from the cache filled by the first —
same payload up to the `id` member, which carries the second caller's
original id — and pushes nothing to the manager. -/
theorem execute_ws_call_cache_idempotent
    (call1 call2 : Json) (u1 u2 : Nat) (msgs1 msgs2 : List IncomingResponse)
    (sub_data : List SubRecord) (cache : List (Json × Json)) (f : Json → Json)
    (resp : Json)
    (hsame : EqExceptId call1 call2)
    (hunsub : ((call1.set "id" Json.null).get "method").eqStr "eth_unsubscribe" = false)
    (hsub : ((call1.set "id" Json.null).get "method").eqStr "eth_subscribe" = false)
    (hcache : lookupCache cache (call1.set "id" Json.null) = none)
    (hlisten : listen_for_response u1 msgs1 = .ok resp)
    (hnoerr : resp.get "error" = Json.null) :
    call1.set "id" Json.null = call2.set "id" Json.null
    ∧ (execute_ws_call call1 u1 msgs1 sub_data cache f).ret
        = .okJson (resp.set "id" (call1.get "id"))
    ∧ (execute_ws_call call2 u2 msgs2 sub_data
          (execute_ws_call call1 u1 msgs1 sub_data cache f).finalCache f).ret
        = .okJson ((resp.set "id" (call1.get "id")).set "id" (call2.get "id"))
    ∧ (execute_ws_call call2 u2 msgs2 sub_data
          (execute_ws_call call1 u1 msgs1 sub_data cache f).finalCache f).sent
        = [] := by
  have hkey := EqExceptId.normalized_eq hsame
  have h1 : execute_ws_call call1 u1 msgs1 sub_data cache f
      = { ret := .okJson (resp.set "id" (call1.get "id")),
          sent := [WsconnMessage.Message ((f (call1.set "id" Json.null)).set "id" (Json.num u1))],
          cacheFills := [(call1.set "id" Json.null, resp)],
          finalCache := (call1.set "id" Json.null, resp.set "id" Json.null) :: cache,
          finalSub := sub_data } := by
    simp only [execute_ws_call, hcache, hunsub, hsub, hlisten, Bool.false_eq_true, if_false,
      cache_querry, hnoerr, if_pos]
  have h2 : execute_ws_call call2 u2 msgs2 sub_data
        ((call1.set "id" Json.null, resp.set "id" Json.null) :: cache) f
      = { ret := .okJson ((resp.set "id" Json.null).set "id" (call2.get "id")),
          sent := [], cacheFills := [],
          finalCache := (call1.set "id" Json.null, resp.set "id" Json.null) :: cache,
          finalSub := sub_data } := by
    simp only [execute_ws_call, lookupCache, ← hkey, if_pos]
  refine ⟨hkey, by rw [h1], ?_, ?_⟩
  · rw [h1]
    show (execute_ws_call call2 u2 msgs2 sub_data
        ((call1.set "id" Json.null, resp.set "id" Json.null) :: cache) f).ret = _
    rw [h2, Json.set_set, Json.set_set]
  · rw [h1]
    show (execute_ws_call call2 u2 msgs2 sub_data
        ((call1.set "id" Json.null, resp.set "id" Json.null) :: cache) f).sent = _
    rw [h2]

/-- Claim C2, witness: scenario S1 — `eth_blockNumber` by caller 7 then the
identical request by caller 8, the second served from the cache with no
outbound message. -/
theorem execute_ws_call_cache_idempotent_witness :
    blockNumberCall.set "id" Json.null = blockNumberCall8.set "id" Json.null
    ∧ (execute_ws_call blockNumberCall 100 [⟨0, resp100⟩] [] [] (fun c => c)).ret
        = .okJson (resp100.set "id" (blockNumberCall.get "id"))
    ∧ (execute_ws_call blockNumberCall8 101 [] []
          (execute_ws_call blockNumberCall 100 [⟨0, resp100⟩] [] [] (fun c => c)).finalCache
          (fun c => c)).ret
        = .okJson ((resp100.set "id" (blockNumberCall.get "id")).set "id"
            (blockNumberCall8.get "id"))
    ∧ (execute_ws_call blockNumberCall8 101 [] []
          (execute_ws_call blockNumberCall 100 [⟨0, resp100⟩] [] [] (fun c => c)).finalCache
          (fun c => c)).sent
        = [] :=
  execute_ws_call_cache_idempotent blockNumberCall blockNumberCall8 100 101
    [⟨0, resp100⟩] [] [] [] (fun c => c) resp100
    ⟨[("id", .num 7), ("jsonrpc", .str "2.0"),
      ("method", .str "eth_blockNumber"), ("params", .arr [])],
     [("id", .num 8), ("jsonrpc", .str "2.0"),
      ("method", .str "eth_blockNumber"), ("params", .arr [])],
     rfl, rfl, by decide,
     ⟨rfl, fun h => absurd rfl h,
      ⟨rfl, fun _ => rfl, ⟨rfl, fun _ => rfl, ⟨rfl, fun _ => rfl, trivial⟩⟩⟩⟩⟩
    (by decide) (by decide) rfl rfl (by decide)

/-- Claim C3: an `eth_subscribe` whose fingerprint is already in the
Subscription Table returns synchronously (nothing sent to the manager) and
records the user, but the payload is the literal string with the hard-coded
`"id":1` — not the caller's original id 7 — and the upstream id is
interpolated unquoted (the `TODO: change id` on client.rs:215 is the
acknowledged slip). -/
theorem subscribe_hit_literal :
    (execute_ws_call ethSubscribeCall 2 [] [⟨ethSubscribeFp, "0xSUB", 0, [1]⟩] []
        (fun c => c))
      = { ret := .okRaw "\x7b\"jsonrpc\":\"2.0\",\"id\":1,\"result\":0xSUB\x7d",
          sent := [], cacheFills := [], finalCache := [],
          finalSub := [⟨ethSubscribeFp, "0xSUB", 0, [2, 1]⟩] } := by decide

/-- Claim C4: an `eth_unsubscribe` with a non-string `params[0]` returns
synchronously with no network I/O and no Subscription Table change, but the
returned literal is not a JSON object (the braces are missing in the source
string on client.rs:198) and carries the hard-coded `"id":1`, not the
caller's original id 7. -/
theorem bad_unsubscribe_literal :
    (execute_ws_call badUnsubscribeCall 2 [] [⟨ethSubscribeFp, "0xSUB", 0, [1]⟩] []
        (fun c => c))
      = { ret := .okRaw "\"jsonrpc\":\"2.0\", \"id\":1, \"error\": \"Bad Subscription ID!\"",
          sent := [], cacheFills := [], finalCache := [],
          finalSub := [⟨ethSubscribeFp, "0xSUB", 0, [1]⟩] } := by decide

/-- Claim C5: an `eth_unsubscribe` with a string `params[0]` calls
`unsubscribe_user` (here: user 2 leaves, the record keeps user 1) and
returns `result:true` synchronously with nothing pushed to the manager, but
the payload carries the hard-coded `"id":1`, not the caller's original
id 7 (the `TODO: change id` on client.rs:205). -/
theorem unsubscribe_literal :
    (execute_ws_call goodUnsubscribeCall 2 [] [⟨ethSubscribeFp, "0xSUB", 0, [1, 2]⟩] []
        (fun c => c))
      = { ret := .okRaw "\x7b\"jsonrpc\":\"2.0\",\"id\":1,\"result\":true\x7d",
          sent := [], cacheFills := [], finalCache := [],
          finalSub := [⟨ethSubscribeFp, "0xSUB", 0, [1]⟩] } := by decide

/-- Claim C6: `listen_for_response` has no timeout of any kind — its only
exit without a matching message is the broadcast channel closing, and what
it returns then is the bare error string, not a JSON-RPC error carrying the
caller's original id; on an open channel with no matching message it waits
forever. -/
theorem listen_for_response_no_timeout :
    listen_for_response 5 [] = .error "Failed to receive response from WS"
    ∧ listen_for_response 5 [⟨0, .obj [("id", .num 3)]⟩]
        = .error "Failed to receive response from WS" := ⟨rfl, rfl⟩

/-- Claim C7: whenever the selector returns `None` or an out-of-bounds
index, or the worker sender at the chosen index is absent, or its send
fails, the manager logs, drops the `Call` message, and its loop continues
with the rest of the inbound messages unchanged. -/
theorem ws_conn_manager_drops_and_continues
    (ws_handles : List (Option Bool)) (v : Json) (pr : Option Nat)
    (rest : List ManagerInput)
    (hfail : pr = none
      ∨ ∃ i, pr = some i ∧ (ws_handles.length ≤ i
          ∨ ws_handles.get? i = some none
          ∨ ws_handles.get? i = some (some false))) :
    ∃ log, ws_conn_manager_run ws_handles (ManagerInput.call v pr :: rest)
        = ManagerAction.dropped log :: ws_conn_manager_run ws_handles rest := by
  have hstep : ∃ log, manager_handle_call ws_handles v pr = .dropped log := by
    rcases hfail with h | ⟨i, hpr, hcase⟩
    · exact ⟨.noRpcPosition, by simp [manager_handle_call, h]⟩
    · subst hpr
      rcases hcase with hlen | hnone | hfalse
      · exact ⟨.outOfBounds, by simp [manager_handle_call, Nat.not_lt.mpr hlen]⟩
      · have hi : i < ws_handles.length := (List.get?_eq_some.mp hnone).1
        have hget : ws_handles[i] = none := by
          rwa [List.get?_eq_getElem?, List.getElem?_eq_getElem hi, Option.some_inj] at hnone
        exact ⟨.noConnAtIndex, by simp [manager_handle_call, hi, hget]⟩
      · have hi : i < ws_handles.length := (List.get?_eq_some.mp hfalse).1
        have hget : ws_handles[i] = some false := by
          rwa [List.get?_eq_getElem?, List.getElem?_eq_getElem hi, Option.some_inj] at hfalse
        exact ⟨.sendFailed, by simp [manager_handle_call, hi, hget]⟩
  rcases hstep with ⟨log, hl⟩
  exact ⟨log, by simp [ws_conn_manager_run, hl]⟩

/-- Claim C7, witness: spec scenario S5 — an empty registry, the selector
returns `None`, the call is dropped and the loop goes on. -/
theorem ws_conn_manager_drops_and_continues_witness :
    ∃ log, ws_conn_manager_run [] [ManagerInput.call Json.null none]
        = ManagerAction.dropped log :: ws_conn_manager_run [] [] :=
  ws_conn_manager_drops_and_continues [] Json.null none [] (Or.inl rfl)

/-- Claim C8: the worker loop evaluated at the two inputs the claim is about.
First conjunct: an inbound message with `method == "close"` is written to
the socket like any other frame — there is no graceful-close sentinel
handling in `ws_conn`.  Second conjunct: the upstream stream ending
(`next()` returning `None`) hits the `.unwrap()` on client.rs:140 and
panics instead of reporting `Closed(index)`.  The last two conjuncts record
what does work: a write or read error reports `Closed(index)` exactly once
and the task exits. -/
theorem ws_conn_close_and_stream_end :
    ws_conn_run 0 [(closeSentinel, .readOk (.obj [("id", .num 1)]))]
      = [.wrote closeSentinel, .broadcast ⟨0, .obj [("id", .num 1)]⟩, .updatedLatency 0]
    ∧ ws_conn_run 0 [(.obj [("id", .num 1)], .streamEnd)]
      = [.wrote (.obj [("id", .num 1)]), .panicUnwrap]
    ∧ ws_conn_run 0 [(.obj [("id", .num 1)], .writeErr)] = [.reportClosed 0]
    ∧ ws_conn_run 0 [(.obj [("id", .num 1)], .readErr)]
      = [.wrote (.obj [("id", .num 1)]), .reportClosed 0] := ⟨rfl, rfl, rfl, rfl⟩

/-- Claim C9: a call whose method is `eth_subscribe` or `eth_unsubscribe`
never reaches the cache-fill step — `cache_querry` is not invoked on any
path for such a call and the cache is left unchanged. -/
theorem execute_ws_call_no_sub_cache_fill
    (call : Json) (user_id : Nat) (msgs : List IncomingResponse)
    (sub_data : List SubRecord) (cache : List (Json × Json)) (f : Json → Json)
    (h : (call.set "id" Json.null).get "method" = Json.str "eth_subscribe"
       ∨ (call.set "id" Json.null).get "method" = Json.str "eth_unsubscribe") :
    (execute_ws_call call user_id msgs sub_data cache f).cacheFills = []
    ∧ (execute_ws_call call user_id msgs sub_data cache f).finalCache = cache := by
  rcases h with h | h <;>
  · simp only [execute_ws_call, h, Json.eqStr]
    constructor <;> (split <;> try simp) <;> (split <;> try simp)

/-- Claim C9, witness: the `eth_subscribe` of scenario S2 fills nothing into
the cache. -/
theorem execute_ws_call_no_sub_cache_fill_witness :
    (execute_ws_call ethSubscribeCall 2 [] [] [] (fun c => c)).cacheFills = []
    ∧ (execute_ws_call ethSubscribeCall 2 [] [] [] (fun c => c)).finalCache = [] :=
  execute_ws_call_no_sub_cache_fill ethSubscribeCall 2 [] [] [] (fun c => c)
    (Or.inl (by decide))

/-- Claim C10: `create_ws_vec` yields one handle per node of the registry
snapshot, in order, every one of them `Some`; consequently, right after a
build (or the `Reconnect` rebuild, which calls the same function) the
manager's missing-connection branch cannot be taken for any in-bounds
index — the message is forwarded. -/
theorem create_ws_vec_all_some
    (rpc_list : List Rpc) (i : Nat) (v : Json) (hi : i < rpc_list.length) :
    (create_ws_vec rpc_list).length = rpc_list.length
    ∧ (∀ s ∈ create_ws_vec rpc_list, s.isSome = true)
    ∧ manager_handle_call (create_ws_vec rpc_list) v (some i) = .sent i v := by
  refine ⟨by simp [create_ws_vec], ?_, ?_⟩
  · intro s hs
    simp [create_ws_vec] at hs
    obtain ⟨a, _, rfl⟩ := hs
    rfl
  · have hlen : i < (create_ws_vec rpc_list).length := by
      simpa [create_ws_vec] using hi
    have hget : (create_ws_vec rpc_list)[i] = some true := by
      simp [create_ws_vec]
    simp [manager_handle_call, hlen, hget]

/-- Claim C10, witness: a one-node registry, index 0. -/
theorem create_ws_vec_all_some_witness :
    (create_ws_vec [⟨some "ws"⟩]).length = ([⟨some "ws"⟩] : List Rpc).length
    ∧ (∀ s ∈ create_ws_vec [⟨some "ws"⟩], s.isSome = true)
    ∧ manager_handle_call (create_ws_vec [⟨some "ws"⟩]) Json.null (some 0)
        = .sent 0 Json.null :=
  create_ws_vec_all_some [⟨some "ws"⟩] 0 Json.null (by decide)

end Blutgang
